import Mathlib

set_option maxHeartbeats 1000000

/-!
Shallow embedding of rustbuster (src/main.rs) for checking the
natural-language specification against the code.

Only `src/main.rs` is available; the modules `args`, `banner`, `dirbuster`,
`dnsbuster`, `vhostbuster` and `fuzzbuster` are not in the sources.  Where a
claim depends on one of those modules, the corresponding definition carries a
doc comment starting with `Modelled from the spec:` and follows the spec text;
everything else is translated directly from `main.rs`.

Conventions:
- machine integers (`usize`, `u64`) are `Nat`; the only subtraction that can
  underflow (`domain.len() - 3`) is modelled explicitly as a partial
  operation (see `dns_display_domain`);
- Rust byte strings that are sliced at byte offsets (the dns domain) are
  `List Nat` of byte values; other strings are Lean `String`s;
- `error!`, `warn!`, `println!` and `bar.println` are modelled as emitted
  events; `println!` and `bar.println` print the same line (the
  `no_progress_bar` flag only selects the sink), so both are one `display`
  event; progress-bar drawing is out of scope per spec section 1;
- returning from `fn main()` (the `return;` statements) makes the process
  exit with code 0, which is recorded in `MainOutcome.exit_code`.
-/

/-- Observable driver actions in the HTTP-mode receive loops:
`logError` is `error!`, `warn` is `warn!`, `display` is the result line
printed via `println!` or `bar.println`. -/
inductive Event where
  | logError (s : String)
  | warn (s : String)
  | display (s : String)
deriving DecidableEq

/-- Value shown in the progress bar req/s slot. -/
inductive ProgressMsg where
  | warmingUp
  | reqPerSec (n : Nat)
deriving DecidableEq

/-- Mirrors main.rs 228-236 (and the identical 329-337, 432-440): the message
set on each loop iteration, from the current request count and the whole
seconds elapsed since start. -/
def set_message_value (current_numbers_of_request seconds_from_start : Nat) :
    ProgressMsg :=
  if seconds_from_start ≠ 0 then
    ProgressMsg.reqPerSec (current_numbers_of_request / seconds_from_start)
  else
    ProgressMsg.warmingUp

/-- Mirrors main.rs 266-272 (and the identical 462-468): number of alignment
tabs from `msg.status.len() / 8`. -/
def n_tabs (statusLen : Nat) : Nat :=
  match statusLen / 8 with
  | 3 => 1
  | 2 => 2
  | 1 => 3
  | 0 => 4
  | _ => 0

/-- Rust `"\t".repeat(n)`. -/
def tab_repeat (n : Nat) : String :=
  String.mk (List.replicate n '\t')

/-- Per-result record received by the dir driver.  The struct itself lives in
`dirbuster::result_processor` (not in src/); its fields are exactly the ones
`main.rs` reads: `url`, `method`, `status`, `error`, `extra`. -/
structure SingleDirScanResult where
  url : String
  method : String
  status : String
  error : Option String
  extra : Option String
deriving DecidableEq

/-- Mirrors main.rs 208-211: the status-code filter configuration handed to
the dir result processor. -/
structure ResultProcessorConfig where
  include_status : List String
  ignore_status : List String
deriving DecidableEq

/-- Dir aggregator state (`dirbuster::result_processor::ScanResult`). -/
structure ScanResult where
  config : ResultProcessorConfig
  results : List SingleDirScanResult
deriving DecidableEq

/-- Modelled from the spec: the dir result classifier lives in
`dirbuster::result_processor`, which is not in src/.  Spec section 4.6: if
`include_status` is non-empty keep only codes in it; else if `ignore_status`
is non-empty drop codes in it; else drop 404. -/
def dir_reportable (cfg : ResultProcessorConfig) (status : String) : Bool :=
  if cfg.include_status ≠ [] then cfg.include_status.contains status
  else if cfg.ignore_status ≠ [] then !cfg.ignore_status.contains status
  else status != "404"

/-- Dir uniqueness key, spec section 3: (method, url, status). -/
def dir_key (r : SingleDirScanResult) : String × String × String :=
  (r.method, r.url, r.status)

/-- Modelled from the spec: `ScanResult::maybe_add_result` is not in src/.
Spec sections 4.6-4.7: a reportable result whose key is unseen is appended and
the call reports true; otherwise the state is unchanged and it reports
false. -/
def dir_maybe_add_result (st : ScanResult) (msg : SingleDirScanResult) :
    ScanResult × Bool :=
  if dir_reportable st.config msg.status
      && st.results.all (fun r => decide (dir_key r ≠ dir_key msg)) then
    (⟨st.config, st.results ++ [msg]⟩, true)
  else
    (st, false)

/-- Mirrors main.rs 260-292: the line printed for an added dir result. -/
def dir_display_line (msg : SingleDirScanResult) : String :=
  let extra0 := msg.extra.getD ""
  let extra :=
    if extra0 = "" then extra0 else "\n\t\t\t\t\t\t=> " ++ extra0
  msg.method ++ "\t" ++ msg.status
    ++ tab_repeat (n_tabs msg.status.utf8ByteSize) ++ msg.url ++ extra

/-- The common flags the receive loops consult. -/
structure CommonArgs where
  exit_on_connection_errors : Bool
deriving DecidableEq

/-- Mirrors the dir receive-loop body after `rx.recv()` succeeds
(main.rs 246-293): on an error result, log it and — when this is the first
result overall or `exit_on_connection_errors` is set — warn and break;
otherwise fall through to `maybe_add_result` and print the line when it was
added.  Returns the new processor state, the emitted events, and whether the
loop breaks. -/
def dir_handle_msg (args : CommonArgs) (current_numbers_of_request : Nat)
    (result_processor : ScanResult) (msg : SingleDirScanResult) :
    ScanResult × List Event × Bool :=
  match msg.error with
  | some e =>
    if current_numbers_of_request = 1 ∨ args.exit_on_connection_errors then
      (result_processor,
        [Event.logError e, Event.warn "Check connectivity to the target"],
        true)
    else
      let r := dir_maybe_add_result result_processor msg
      (r.1,
        Event.logError e
          :: (if r.2 then [Event.display (dir_display_line msg)] else []),
        false)
  | none =>
    let r := dir_maybe_add_result result_processor msg
    (r.1,
      (if r.2 then [Event.display (dir_display_line msg)] else []),
      false)

/-- Mirrors the dir while loop (main.rs 225-294).  `msgs` is the sequence of
results the channel delivers; an exhausted list with the loop still running is
`recv` returning `Err` (sender dropped), which logs and breaks.  `count` is
the value of `current_numbers_of_request` before the iteration increments
it. -/
def dir_loop (args : CommonArgs) (total : Nat) (count : Nat)
    (proc : ScanResult) (msgs : List SingleDirScanResult) :
    ScanResult × List Event :=
  if count = total then (proc, [])
  else
    match msgs with
    | [] => (proc, [Event.logError "channel closed"])
    | m :: rest =>
      let step := dir_handle_msg args (count + 1) proc m
      if step.2.2 then (step.1, step.2.1)
      else
        let next := dir_loop args total (count + 1) step.1 rest
        (next.1, step.2.1 ++ next.2)

/-- Per-result record received by the vhost driver
(`vhostbuster::result_processor`, not in src/); fields are the ones `main.rs`
reads: `vhost`, `method`, `status`, `error`, `ignored`.  `ignored` is set by
the worker when the response body matched an `--ignore-string`. -/
structure SingleVhostScanResult where
  vhost : String
  method : String
  status : String
  error : Option String
  ignored : Bool
deriving DecidableEq

/-- Vhost aggregator state (`vhostbuster::result_processor::VhostScanResult`). -/
structure VhostScanResult where
  results : List SingleVhostScanResult
deriving DecidableEq

/-- Vhost uniqueness key, spec section 3: (method, vhost, status). -/
def vhost_key (r : SingleVhostScanResult) : String × String × String :=
  (r.method, r.vhost, r.status)

/-- Modelled from the spec: `VhostScanResult::maybe_add_result` is not in
src/.  Spec section 4.7: append when the key is unseen, otherwise silently
discard the duplicate. -/
def vhost_maybe_add_result (st : VhostScanResult)
    (msg : SingleVhostScanResult) : VhostScanResult :=
  if st.results.all (fun r => decide (vhost_key r ≠ vhost_key msg)) then
    ⟨st.results ++ [msg]⟩
  else
    st

/-- Mirrors main.rs 472-488: the line printed for a non-ignored vhost
result. -/
def vhost_display_line (msg : SingleVhostScanResult) : String :=
  msg.method ++ "\t" ++ msg.status
    ++ tab_repeat (n_tabs msg.status.utf8ByteSize) ++ msg.vhost

/-- Mirrors the vhost receive-loop body after `rx.recv()` succeeds
(main.rs 450-489): the same error policy as dir, then — only when
`msg.ignored` is false — add to the aggregator and print the line (the add
happens unconditionally for non-ignored results, the return value is not
consulted). -/
def vhost_handle_msg (args : CommonArgs) (current_numbers_of_request : Nat)
    (result_processor : VhostScanResult) (msg : SingleVhostScanResult) :
    VhostScanResult × List Event × Bool :=
  match msg.error with
  | some e =>
    if current_numbers_of_request = 1 ∨ args.exit_on_connection_errors then
      (result_processor,
        [Event.logError e, Event.warn "Check connectivity to the target"],
        true)
    else
      if !msg.ignored then
        (vhost_maybe_add_result result_processor msg,
          [Event.logError e, Event.display (vhost_display_line msg)], false)
      else
        (result_processor, [Event.logError e], false)
  | none =>
    if !msg.ignored then
      (vhost_maybe_add_result result_processor msg,
        [Event.display (vhost_display_line msg)], false)
    else
      (result_processor, [], false)

/-- Mirrors the vhost while loop (main.rs 429-490), like `dir_loop`. -/
def vhost_loop (args : CommonArgs) (total : Nat) (count : Nat)
    (proc : VhostScanResult) (msgs : List SingleVhostScanResult) :
    VhostScanResult × List Event :=
  if count = total then (proc, [])
  else
    match msgs with
    | [] => (proc, [Event.logError "channel closed"])
    | m :: rest =>
      let step := vhost_handle_msg args (count + 1) proc m
      if step.2.2 then (step.1, step.2.1)
      else
        let next := vhost_loop args total (count + 1) step.1 rest
        (next.1, step.2.1 ++ next.2)

/-- Modelled from the spec: the fuzz driver loop is in `fuzzbuster.rs`, which
is not in src/.  Spec section 4.8 states one error policy for every mode: on
an error result log it, and when it is the first result overall or
`exit_on_connection_errors` is enabled, warn and break. -/
def fuzz_handle_error (exit_on_connection_errors : Bool)
    (current_numbers_of_request : Nat) (error : Option String) :
    List Event × Bool :=
  match error with
  | some e =>
    if current_numbers_of_request = 1 ∨ exit_on_connection_errors then
      ([Event.logError e, Event.warn "Check connectivity to the target"],
        true)
    else
      ([Event.logError e], false)
  | none => ([], false)

/-- A resolved address as the dns driver reads it: the `is_ipv4` tag and the
rendering of `addr.ip().to_string()`. -/
structure ResolvedAddr where
  is_ipv4 : Bool
  ip_string : String
deriving DecidableEq

/-- Per-result record received by the dns driver
(`dnsbuster::result_processor`, not in src/); fields are the ones `main.rs`
reads: `domain`, `status`, `extra`.  The domain is a byte string because the
driver slices it at byte offsets. -/
structure SingleDnsScanResult where
  domain : List Nat
  status : Bool
  extra : Option (List ResolvedAddr)
deriving DecidableEq

/-- Dns aggregator state (`dnsbuster::result_processor::DnsScanResult`). -/
structure DnsScanResult where
  results : List SingleDnsScanResult
deriving DecidableEq

/-- Modelled from the spec: `DnsScanResult::maybe_add_result` is not in src/.
Spec sections 4.6-4.7: a dns result is reportable iff resolution returned at
least one address (`status` true); a reportable result with an unseen domain
key is appended, anything else leaves the state unchanged. -/
def dns_maybe_add_result (st : DnsScanResult) (msg : SingleDnsScanResult) :
    DnsScanResult :=
  if msg.status
      && st.results.all (fun r => decide (r.domain ≠ msg.domain)) then
    ⟨st.results ++ [msg]⟩
  else
    st

/-- Mirrors Rust `str::is_char_boundary` on a byte string: index 0 is always
a boundary; an in-range index is a boundary iff the byte there is not a UTF-8
continuation byte (below 128 or at least 192); past-the-end indices are a
boundary only at exactly the length. -/
def is_char_boundary (s : List Nat) (i : Nat) : Bool :=
  if i = 0 then true
  else
    match s[i]? with
    | some b => decide (b < 128) || decide (192 ≤ b)
    | none => decide (i = s.length)

/-- Rust byte-slicing `s[..j]`: the first `j` bytes when `j` is in range and
on a character boundary; `none` models the panic otherwise. -/
def slice_to (s : List Nat) (j : Nat) : Option (List Nat) :=
  if j ≤ s.length ∧ is_char_boundary s j then some (s.take j) else none

/-- Mirrors main.rs 351/353: `&msg.domain[..msg.domain.len() - 3]`.  When the
domain has fewer than 3 bytes the `usize` subtraction underflows (an
arithmetic panic in debug builds, a wildly out-of-range slice panic in
release builds), modelled as `none`; otherwise it is the byte slice, which
itself panics off a character boundary. -/
def dns_display_domain (domain : List Nat) : Option (List Nat) :=
  if 3 ≤ domain.length then slice_to domain (domain.length - 3) else none

/-- Observable dns driver actions: `displayDomain` is the `OK\t...` line with
the sliced domain, `displayAddr` one `IPv4:`/`IPv6:` line, `panicked` the
byte-slice panic aborting the process, `logError` is `error!`. -/
inductive DnsEvent where
  | displayDomain (shown : List Nat)
  | displayAddr (line : String)
  | panicked
  | logError (s : String)
deriving DecidableEq

/-- Mirrors main.rs 362-374: the per-address line. -/
def addr_line (a : ResolvedAddr) : String :=
  if a.is_ipv4 then "\t\tIPv4: " ++ a.ip_string
  else "\t\tIPv6: " ++ a.ip_string

/-- Mirrors the dns receive-loop body after `rx.recv()` succeeds
(main.rs 347-382): `maybe_add_result` is called unconditionally (line 347)
before the match on `msg.status`; a resolved result is displayed through the
byte slice — which can panic — followed by its address lines; an unresolved
result produces no output. -/
def dns_handle_msg (result_processor : DnsScanResult)
    (msg : SingleDnsScanResult) : DnsScanResult × List DnsEvent :=
  let proc := dns_maybe_add_result result_processor msg
  match msg.status with
  | true =>
    match dns_display_domain msg.domain with
    | none => (proc, [DnsEvent.panicked])
    | some shown =>
      (proc,
        DnsEvent.displayDomain shown ::
          (match msg.extra with
           | some v => v.map (fun a => DnsEvent.displayAddr (addr_line a))
           | none => []))
  | false => (proc, [])

/-- Modelled from the spec: `dnsbuster::utils::build_domains` is not in src/.
Spec section 4.2, dns: each candidate is the wordlist entry, a dot, the
parent domain, and a trailing dot (46 is the dot byte). -/
def build_domain (w parent : List Nat) : List Nat :=
  w ++ [46] ++ parent ++ [46]

/-- The four subcommands. -/
inductive Mode where
  | dir
  | dns
  | vhost
  | fuzz
deriving DecidableEq

/-- The arguments the pre-flight of `main` consults: the subcommand, the
wordlist paths, the `-u` value (only validated as a URL in the HTTP modes)
and the `--ignore-string` values (only consulted in vhost mode here; fuzz
keeps them without a pre-flight check). -/
structure PreflightArgs where
  mode : Mode
  wordlist_paths : List String
  url : String
  ignore_strings : List String
deriving DecidableEq

/-- Outcome of running `main` up to probe construction: the process exit
code, the `error!` lines emitted, and whether probe construction and the scan
were reached. -/
structure MainOutcome where
  exit_code : Nat
  errors : List String
  dispatched : Bool
deriving DecidableEq

/-- Modelled from the spec: `dirbuster::utils::url_is_valid` is not in src/.
The spec (sections 6 and 7) only requires that an invalid URL is a fatal
pre-flight ConfigError reported with a user-visible error before any probe;
the exact URI grammar is immaterial to the claims, so validity is modelled as
being an absolute http(s) URL. -/
def spec_url_is_valid (u : String) : Bool :=
  u.data.take 7 = "http://".data || u.data.take 8 = "https://".data

/-- Mirrors the pre-flight of `main` (main.rs 147-164 and the head of each
mode arm: 185-189, 303-306, 392-403, 499-503).  Every wordlist path is
checked first, each missing one logging an error, and any failure returns
from `main`; then dir/fuzz validate the URL, vhost first requires a non-empty
`--ignore-string` list and then validates the URL, and dns performs no
further check.  `return;` from `fn main()` exits the process with code 0, so
every outcome carries exit code 0; `dispatched` records whether the probes
were built and the scan started. -/
def main_run (fs : List String) (a : PreflightArgs) : MainOutcome :=
  if a.wordlist_paths.all (fun p => fs.contains p) = false then
    ⟨0, (a.wordlist_paths.filter (fun p => !fs.contains p)).map
        (fun p => "Specified wordlist does not exist: " ++ p), false⟩
  else
    match a.mode with
    | Mode.dir =>
      if spec_url_is_valid a.url = false then
        ⟨0, ["invalid URL: " ++ a.url], false⟩
      else ⟨0, [], true⟩
    | Mode.dns => ⟨0, [], true⟩
    | Mode.vhost =>
      if a.ignore_strings.isEmpty then
        ⟨0, ["ignore_strings not specified (-x)"], false⟩
      else if spec_url_is_valid a.url = false then
        ⟨0, ["invalid URL: " ++ a.url], false⟩
      else ⟨0, [], true⟩
    | Mode.fuzz =>
      if spec_url_is_valid a.url = false then
        ⟨0, ["invalid URL: " ++ a.url], false⟩
      else ⟨0, [], true⟩

/-- The configuration errors named by the spec: a missing wordlist (any
mode), an invalid URL (the HTTP modes), vhost without any `--ignore-string`. -/
def config_error (fs : List String) (a : PreflightArgs) : Bool :=
  !a.wordlist_paths.all (fun p => fs.contains p)
    || (decide (a.mode ≠ Mode.dns) && !spec_url_is_valid a.url)
    || (decide (a.mode = Mode.vhost) && a.ignore_strings.isEmpty)

/-- Claim C4: for every displayed result in dir and vhost modes, the number
of alignment tabs printed after the status string is a function of the status
string byte length: lengths in [0,8) receive 4 tabs, [8,16) receive 3,
[16,24) receive 2, and [24,32) receive 1 (both display lines format with
`tab_repeat (n_tabs status.utf8ByteSize)`). -/
theorem C4_alignment_tabs (l : Nat) :
    (l < 8 → n_tabs l = 4) ∧ (8 ≤ l → l < 16 → n_tabs l = 3) ∧
    (16 ≤ l → l < 24 → n_tabs l = 2) ∧ (24 ≤ l → l < 32 → n_tabs l = 1) := by
  refine ⟨fun h => ?_, fun h1 h2 => ?_, fun h1 h2 => ?_, fun h1 h2 => ?_⟩
  · have hq : l / 8 = 0 := by omega
    simp [n_tabs, hq]
  · have hq : l / 8 = 1 := by omega
    simp [n_tabs, hq]
  · have hq : l / 8 = 2 := by omega
    simp [n_tabs, hq]
  · have hq : l / 8 = 3 := by omega
    simp [n_tabs, hq]

/-- Witness for C4 at concrete lengths in each interval. -/
theorem C4_alignment_tabs_witness :
    n_tabs 3 = 4 ∧ n_tabs 11 = 3 ∧ n_tabs 17 = 2 ∧ n_tabs 29 = 1 :=
  ⟨(C4_alignment_tabs 3).1 (by decide),
   (C4_alignment_tabs 11).2.1 (by decide) (by decide),
   (C4_alignment_tabs 17).2.2.1 (by decide) (by decide),
   (C4_alignment_tabs 29).2.2.2 (by decide) (by decide)⟩

/-- Claim C7 counterexample: on an iteration where zero whole seconds have
elapsed, the message is the warming-up placeholder, not the claimed quotient
received / max(1, elapsed) (which would be 5 here). -/
theorem C7_reqs_message_counterexample :
    set_message_value 5 0 ≠ ProgressMsg.reqPerSec (5 / max 1 0) := by
  decide

/-- Claim C7 (amended): on each iteration with at least one whole second
elapsed, the req/s message is the integer quotient received / elapsed_seconds
(equal to received / max(1, elapsed_seconds)); with zero seconds elapsed the
message is the warming-up placeholder instead. -/
theorem C7_reqs_message (received elapsed : Nat) (h : 1 ≤ elapsed) :
    set_message_value received elapsed
      = ProgressMsg.reqPerSec (received / max 1 elapsed) := by
  have h0 : elapsed ≠ 0 := by omega
  simp [set_message_value, h0, Nat.max_eq_right h]

/-- Witness for C7 at received = 7, elapsed = 2. -/
theorem C7_reqs_message_witness :
    set_message_value 7 2 = ProgressMsg.reqPerSec 3 := by
  rw [C7_reqs_message 7 2 (by decide)]
  rfl

/-- Claim C2: in dns mode, a result whose resolution returned zero addresses
(status false) is not added to the aggregator and produces no output: the
receive-loop body leaves the processor unchanged and emits nothing. -/
theorem C2_dns_unresolved_not_reported (proc : DnsScanResult)
    (msg : SingleDnsScanResult) (h : msg.status = false) :
    dns_handle_msg proc msg = (proc, []) := by
  simp [dns_handle_msg, dns_maybe_add_result, h]

/-- Witness for C2 on a concrete unresolved result. -/
theorem C2_dns_unresolved_not_reported_witness :
    dns_handle_msg ⟨[]⟩ ⟨[119, 46, 100, 46], false, none⟩ = (⟨[]⟩, []) :=
  C2_dns_unresolved_not_reported ⟨[]⟩ ⟨[119, 46, 100, 46], false, none⟩ rfl

/-- Claim C6: in vhost mode, a result marked ignored (its body matched an
`--ignore-string`) is neither added to the aggregator nor printed: the
receive-loop body leaves the processor unchanged and emits no display
event. -/
theorem C6_vhost_ignored_not_reported (args : CommonArgs) (count : Nat)
    (proc : VhostScanResult) (msg : SingleVhostScanResult)
    (h : msg.ignored = true) :
    (vhost_handle_msg args count proc msg).1 = proc ∧
      ∀ s, Event.display s ∉ (vhost_handle_msg args count proc msg).2.1 := by
  cases he : msg.error with
  | some e =>
    by_cases hb : count = 1 ∨ args.exit_on_connection_errors
    · simp [vhost_handle_msg, he, hb, h]
    · simp [vhost_handle_msg, he, hb, h]
  | none =>
    simp [vhost_handle_msg, he, h]

/-- Witness for C6 on a concrete ignored result. -/
theorem C6_vhost_ignored_not_reported_witness :
    (vhost_handle_msg ⟨false⟩ 2 ⟨[]⟩ ⟨"a.test.local", "GET", "200", none, true⟩).1
        = ⟨[]⟩ ∧
      Event.display "GET\t200\t\t\t\ta.test.local"
        ∉ (vhost_handle_msg ⟨false⟩ 2 ⟨[]⟩
            ⟨"a.test.local", "GET", "200", none, true⟩).2.1 :=
  ⟨(C6_vhost_ignored_not_reported ⟨false⟩ 2 ⟨[]⟩
      ⟨"a.test.local", "GET", "200", none, true⟩ rfl).1,
   (C6_vhost_ignored_not_reported ⟨false⟩ 2 ⟨[]⟩
      ⟨"a.test.local", "GET", "200", none, true⟩ rfl).2
     "GET\t200\t\t\t\ta.test.local"⟩

/-- Claim C10: in dir mode, an error result that is not the first received
and with `exit_on_connection_errors` disabled is not skipped: after logging
the error the loop body still hands it to `maybe_add_result` and, when that
accepts it, prints its line like any other finding. -/
theorem C10_dir_error_result_not_skipped (args : CommonArgs) (count : Nat)
    (proc : ScanResult) (msg : SingleDirScanResult) (e : String)
    (he : msg.error = some e) (hc : count ≠ 1)
    (hf : args.exit_on_connection_errors = false) :
    dir_handle_msg args count proc msg
      = ((dir_maybe_add_result proc msg).1,
         Event.logError e
           :: (if (dir_maybe_add_result proc msg).2 then
                 [Event.display (dir_display_line msg)] else []),
         false) := by
  simp [dir_handle_msg, he, hc, hf]

/-- Witness for C10: a concrete non-first connection-error result with a 200
status is added to the aggregator and printed. -/
theorem C10_dir_error_result_not_skipped_witness :
    dir_handle_msg ⟨false⟩ 2 ⟨⟨[], []⟩, []⟩
        ⟨"http://h/a", "GET", "200", some "connection refused", none⟩
      = (⟨⟨[], []⟩,
          [⟨"http://h/a", "GET", "200", some "connection refused", none⟩]⟩,
         [Event.logError "connection refused",
          Event.display (dir_display_line
            ⟨"http://h/a", "GET", "200", some "connection refused", none⟩)],
         false) := by
  rw [C10_dir_error_result_not_skipped ⟨false⟩ 2 ⟨⟨[], []⟩, []⟩
      ⟨"http://h/a", "GET", "200", some "connection refused", none⟩
      "connection refused" rfl (by decide) rfl]
  decide

/-- Claim C3: in every HTTP mode the driver logs each error result, and when
that result is the first received overall or `exit_on_connection_errors` is
enabled it warns and breaks out of the receive loop, processing no further
results.  Dir and vhost are the loops of main.rs 225-294 and 429-490 (`count`
is the iteration count before the increment, so `count = 0` is the first
result); the fuzz driver is spec-modelled by `fuzz_handle_error`. -/
theorem C3_http_error_policy :
    (∀ (args : CommonArgs) (total count : Nat) (proc : ScanResult)
        (m : SingleDirScanResult) (rest : List SingleDirScanResult)
        (e : String), count ≠ total → m.error = some e →
      Event.logError e ∈ (dir_loop args total count proc (m :: rest)).2 ∧
      ((count = 0 ∨ args.exit_on_connection_errors = true) →
        dir_loop args total count proc (m :: rest)
          = (proc, [Event.logError e,
              Event.warn "Check connectivity to the target"]))) ∧
    (∀ (args : CommonArgs) (total count : Nat) (proc : VhostScanResult)
        (m : SingleVhostScanResult) (rest : List SingleVhostScanResult)
        (e : String), count ≠ total → m.error = some e →
      Event.logError e ∈ (vhost_loop args total count proc (m :: rest)).2 ∧
      ((count = 0 ∨ args.exit_on_connection_errors = true) →
        vhost_loop args total count proc (m :: rest)
          = (proc, [Event.logError e,
              Event.warn "Check connectivity to the target"]))) ∧
    (∀ (flag : Bool) (count : Nat) (e : String),
      Event.logError e ∈ (fuzz_handle_error flag count (some e)).1 ∧
      ((count = 1 ∨ flag = true) →
        fuzz_handle_error flag count (some e)
          = ([Event.logError e,
              Event.warn "Check connectivity to the target"], true))) := by
  refine ⟨?_, ?_, ?_⟩
  · intro args total count proc m rest e hct he
    constructor
    · by_cases hb : count = 0 ∨ args.exit_on_connection_errors = true
      · simp [dir_loop, hct, dir_handle_msg, he, hb]
      · simp [dir_loop, hct, dir_handle_msg, he, hb]
    · intro hfirst
      simp [dir_loop, hct, dir_handle_msg, he, hfirst]
  · intro args total count proc m rest e hct he
    constructor
    · by_cases hb : count = 0 ∨ args.exit_on_connection_errors = true
      · simp [vhost_loop, hct, vhost_handle_msg, he, hb]
      · by_cases hi : m.ignored
        · simp [vhost_loop, hct, vhost_handle_msg, he, hb, hi]
        · simp [vhost_loop, hct, vhost_handle_msg, he, hb, hi]
    · intro hfirst
      simp [vhost_loop, hct, vhost_handle_msg, he, hfirst]
  · intro flag count e
    constructor
    · by_cases hb : count = 1 ∨ flag = true
      · simp [fuzz_handle_error, hb]
      · simp [fuzz_handle_error, hb]
    · intro hb
      simp [fuzz_handle_error, hb]

/-- Witness for C3: a first-result connection error terminates the dir loop
with just the log and warn events, independently of the queued second
result. -/
theorem C3_http_error_policy_witness :
    dir_loop ⟨false⟩ 3 0 ⟨⟨[], []⟩, []⟩
        [⟨"http://h/a", "GET", "", some "connection refused", none⟩,
         ⟨"http://h/b", "GET", "200", none, none⟩]
      = (⟨⟨[], []⟩, []⟩,
         [Event.logError "connection refused",
          Event.warn "Check connectivity to the target"]) :=
  (C3_http_error_policy.1 ⟨false⟩ 3 0 ⟨⟨[], []⟩, []⟩
      ⟨"http://h/a", "GET", "", some "connection refused", none⟩
      [⟨"http://h/b", "GET", "200", none, none⟩] "connection refused"
      (by decide) rfl).2 (Or.inl rfl)

/-- Helper: when some wordlist does not exist, the list of missing-wordlist
error lines is non-empty. -/
theorem filter_missing_ne_nil (fs l : List String)
    (h : l.all (fun p => fs.contains p) = false) :
    (l.filter (fun p => !fs.contains p)).map
        (fun p => "Specified wordlist does not exist: " ++ p) ≠ [] := by
  rw [List.all_eq_false] at h
  obtain ⟨x, hx, hnc⟩ := h
  intro hcontra
  rw [List.map_eq_nil_iff] at hcontra
  have hmem : x ∈ l.filter (fun p => !fs.contains p) :=
    List.mem_filter.mpr ⟨hx, by simpa using hnc⟩
  rw [hcontra] at hmem
  exact List.not_mem_nil x hmem

/-- Claim C8: in vhost mode an empty `--ignore-string` list makes the program
report an error and return before constructing any probe; when the wordlists
all exist the error is exactly the `ignore_strings not specified (-x)`
message (main.rs 393-398, checked before `build_vhosts`). -/
theorem C8_vhost_requires_ignore_strings (fs : List String)
    (a : PreflightArgs) (hm : a.mode = Mode.vhost)
    (hi : a.ignore_strings = []) :
    (main_run fs a).errors ≠ [] ∧ (main_run fs a).dispatched = false ∧
      (a.wordlist_paths.all (fun p => fs.contains p) = true →
        (main_run fs a).errors = ["ignore_strings not specified (-x)"]) := by
  cases hb : a.wordlist_paths.all (fun p => fs.contains p) with
  | false =>
    have hbranch : main_run fs a
        = ⟨0, (a.wordlist_paths.filter (fun p => !fs.contains p)).map
            (fun p => "Specified wordlist does not exist: " ++ p), false⟩ := by
      unfold main_run
      rw [if_pos hb]
    rw [hbranch]
    exact ⟨filter_missing_ne_nil fs a.wordlist_paths hb, rfl,
      fun hall => absurd hall (by decide)⟩
  | true =>
    have hbranch : main_run fs a
        = ⟨0, ["ignore_strings not specified (-x)"], false⟩ := by
      unfold main_run
      rw [if_neg (by rw [hb]; decide), hm]
      simp [hi]
    rw [hbranch]
    exact ⟨by simp, rfl, fun _ => rfl⟩

/-- Witness for C8 on a concrete vhost invocation with an existing wordlist
and no `--ignore-string`. -/
theorem C8_vhost_requires_ignore_strings_witness :
    (main_run ["w"] ⟨Mode.vhost, ["w"], "http://h/", []⟩).errors
        = ["ignore_strings not specified (-x)"] ∧
      (main_run ["w"] ⟨Mode.vhost, ["w"], "http://h/", []⟩).dispatched
        = false :=
  ⟨(C8_vhost_requires_ignore_strings ["w"] ⟨Mode.vhost, ["w"], "http://h/", []⟩
      rfl rfl).2.2 (by decide),
   (C8_vhost_requires_ignore_strings ["w"] ⟨Mode.vhost, ["w"], "http://h/", []⟩
      rfl rfl).2.1⟩

/-- Claim C1 counterexample: a dir run with a missing wordlist is a
configuration error that prints a user-visible error and dispatches nothing,
yet the process exit code is 0 (the code handles every configuration error
with `return;` from `fn main()`), refuting both `exits with a non-zero exit
code` and `exit code 0 occurs only on successful completion`. -/
theorem C1_exit_code_counterexample :
    config_error [] ⟨Mode.dir, ["wordlist.txt"], "http://localhost:3000/", []⟩
        = true ∧
      main_run [] ⟨Mode.dir, ["wordlist.txt"], "http://localhost:3000/", []⟩
        = ⟨0, ["Specified wordlist does not exist: wordlist.txt"], false⟩ := by
  constructor
  · decide
  · decide

/-- Claim C1 (amended): for every configuration error (missing wordlist,
invalid URL in an HTTP mode, or vhost invoked without any `--ignore-string`)
the program prints a user-visible error and returns before dispatching any
probe — but the process exits with code 0 in those cases too, so the exit
code does not distinguish configuration errors from successful completion. -/
theorem C1_config_error_aborts_with_exit_zero (fs : List String)
    (a : PreflightArgs) (h : config_error fs a = true) :
    (main_run fs a).errors ≠ [] ∧ (main_run fs a).dispatched = false ∧
      (main_run fs a).exit_code = 0 := by
  cases hb : a.wordlist_paths.all (fun p => fs.contains p) with
  | false =>
    have hbranch : main_run fs a
        = ⟨0, (a.wordlist_paths.filter (fun p => !fs.contains p)).map
            (fun p => "Specified wordlist does not exist: " ++ p), false⟩ := by
      unfold main_run
      rw [if_pos hb]
    rw [hbranch]
    exact ⟨filter_missing_ne_nil fs a.wordlist_paths hb, rfl, rfl⟩
  | true =>
    have h2 : (a.mode ≠ Mode.dns ∧ spec_url_is_valid a.url = false)
        ∨ (a.mode = Mode.vhost ∧ a.ignore_strings = []) := by
      unfold config_error at h
      rw [hb] at h
      simpa using h
    have hwl : ¬ a.wordlist_paths.all (fun p => fs.contains p) = false := by
      rw [hb]
      decide
    rcases h2 with ⟨hne, hurl⟩ | ⟨hveq, hig⟩
    · cases hmode : a.mode with
      | dns => exact absurd hmode hne
      | dir =>
        have hbranch : main_run fs a
            = ⟨0, ["invalid URL: " ++ a.url], false⟩ := by
          unfold main_run
          rw [if_neg hwl, hmode]
          simp [hurl]
        rw [hbranch]
        exact ⟨by simp, rfl, rfl⟩
      | vhost =>
        by_cases hig2 : a.ignore_strings.isEmpty
        · have hbranch : main_run fs a
              = ⟨0, ["ignore_strings not specified (-x)"], false⟩ := by
            unfold main_run
            rw [if_neg hwl, hmode]
            simp [hig2]
          rw [hbranch]
          exact ⟨by simp, rfl, rfl⟩
        · have hbranch : main_run fs a
              = ⟨0, ["invalid URL: " ++ a.url], false⟩ := by
            unfold main_run
            rw [if_neg hwl, hmode]
            simp [hig2, hurl]
          rw [hbranch]
          exact ⟨by simp, rfl, rfl⟩
      | fuzz =>
        have hbranch : main_run fs a
            = ⟨0, ["invalid URL: " ++ a.url], false⟩ := by
          unfold main_run
          rw [if_neg hwl, hmode]
          simp [hurl]
        rw [hbranch]
        exact ⟨by simp, rfl, rfl⟩
    · have hbranch : main_run fs a
          = ⟨0, ["ignore_strings not specified (-x)"], false⟩ := by
        unfold main_run
        rw [if_neg hwl, hveq]
        simp [hig]
      rw [hbranch]
      exact ⟨by simp, rfl, rfl⟩

/-- Witness for C1 (amended) on a concrete fuzz invocation with an invalid
URL. -/
theorem C1_config_error_aborts_with_exit_zero_witness :
    (main_run ["w"] ⟨Mode.fuzz, ["w"], "not a url", []⟩).errors ≠ [] ∧
      (main_run ["w"] ⟨Mode.fuzz, ["w"], "not a url", []⟩).dispatched = false ∧
      (main_run ["w"] ⟨Mode.fuzz, ["w"], "not a url", []⟩).exit_code = 0 :=
  C1_config_error_aborts_with_exit_zero ["w"]
    ⟨Mode.fuzz, ["w"], "not a url", []⟩ (by decide)

/-- Helper: the dns display slice is a panic (none) on a domain shorter than
3 bytes — `domain.len() - 3` underflows. -/
theorem dns_display_domain_of_short (d : List Nat) (h : d.length < 3) :
    dns_display_domain d = none := by
  unfold dns_display_domain
  rw [if_neg (by omega)]

/-- Claim C9: the dns display slices the domain as `domain[..len - 3]` with
no guard: the slice succeeds exactly when the domain has at least 3 bytes and
the cut lands on a UTF-8 character boundary, and a resolved result whose
domain is shorter than 3 bytes makes the driver iteration panic. -/
theorem C9_dns_slice_panics_on_short_domain :
    (∀ domain : List Nat, domain.length < 3 →
      dns_display_domain domain = none) ∧
    (∀ domain : List Nat, (dns_display_domain domain).isSome = true
        ↔ (3 ≤ domain.length
            ∧ is_char_boundary domain (domain.length - 3) = true)) ∧
    (∀ (proc : DnsScanResult) (msg : SingleDnsScanResult),
      msg.status = true → msg.domain.length < 3 →
      (dns_handle_msg proc msg).2 = [DnsEvent.panicked]) := by
  refine ⟨fun d h => dns_display_domain_of_short d h, fun d => ?_, ?_⟩
  · unfold dns_display_domain slice_to
    by_cases h3 : 3 ≤ d.length
    · rw [if_pos h3]
      by_cases hbnd : is_char_boundary d (d.length - 3) = true
      · rw [if_pos ⟨by omega, hbnd⟩]
        simp [h3, hbnd]
      · rw [if_neg (fun hand => hbnd hand.2)]
        simp [hbnd]
    · rw [if_neg h3]
      simp [h3]
  · intro proc msg hs hd
    unfold dns_handle_msg
    rw [hs, dns_display_domain_of_short msg.domain hd]

/-- Witness for C9 on a concrete resolved two-byte domain. -/
theorem C9_dns_slice_panics_on_short_domain_witness :
    dns_display_domain [97, 46] = none ∧
      (dns_handle_msg ⟨[]⟩ ⟨[97, 46], true, none⟩).2 = [DnsEvent.panicked] :=
  ⟨C9_dns_slice_panics_on_short_domain.1 [97, 46] (by decide),
   C9_dns_slice_panics_on_short_domain.2.2 ⟨[]⟩ ⟨[97, 46], true, none⟩ rfl
     (by decide)⟩

/-- Claim C5: in dns mode the displayed domain is the candidate with its last
three bytes removed — not just the single trailing dot: displaying the
candidate `w ++ "." ++ parent ++ "."` built by the target generator
(ASCII parent of length at least 2) removes the trailing dot AND the last two
bytes of the parent, so the result differs from a single-dot strip. -/
theorem C5_dns_display_removes_three_chars (w parent : List Nat)
    (hp : ∀ b ∈ parent, b < 128) (hlen : 2 ≤ parent.length) :
    dns_display_domain (build_domain w parent)
        = some (w ++ [46] ++ parent.take (parent.length - 2)) ∧
      w ++ [46] ++ parent.take (parent.length - 2) ≠ w ++ [46] ++ parent := by
  have hassoc : build_domain w parent = w ++ (46 :: (parent ++ [46])) := by
    simp [build_domain]
  have hL : (build_domain w parent).length = w.length + parent.length + 2 := by
    rw [hassoc]
    simp
    omega
  have hj : (build_domain w parent).length - 3
      = w.length + (parent.length - 1) := by omega
  have hget : (build_domain w parent)[w.length + (parent.length - 1)]?
      = parent[parent.length - 2]? := by
    rw [hassoc]
    have e1 : (w ++ (46 :: (parent ++ [46])))[w.length + (parent.length - 1)]?
        = (46 :: (parent ++ [46]))[w.length + (parent.length - 1) - w.length]? :=
      List.getElem?_append_right (by omega)
    rw [e1]
    have h1 : w.length + (parent.length - 1) - w.length
        = (parent.length - 2) + 1 := by omega
    rw [h1, List.getElem?_cons_succ]
    exact List.getElem?_append_left (by omega)
  obtain ⟨b, hb, hmem⟩ :
      ∃ b, parent[parent.length - 2]? = some b ∧ b ∈ parent := by
    have hlt : parent.length - 2 < parent.length := by omega
    have hsome := List.getElem?_eq_getElem hlt
    exact ⟨_, hsome, List.getElem?_mem hsome⟩
  have hbnd : is_char_boundary (build_domain w parent)
      (w.length + (parent.length - 1)) = true := by
    unfold is_char_boundary
    rw [if_neg (by omega)]
    rw [hget, hb]
    have hb128 : b < 128 := hp b hmem
    simp [hb128]
  have htake : (build_domain w parent).take (w.length + (parent.length - 1))
      = w ++ [46] ++ parent.take (parent.length - 2) := by
    rw [hassoc]
    rw [List.take_append_eq_append_take]
    have h1 : w.take (w.length + (parent.length - 1)) = w :=
      List.take_of_length_le (by omega)
    rw [h1]
    have h2 : w.length + (parent.length - 1) - w.length
        = (parent.length - 2) + 1 := by omega
    rw [h2, List.take_succ_cons]
    have h4 : (parent ++ [46]).take (parent.length - 2)
        = parent.take (parent.length - 2) :=
      List.take_append_of_le_length (by omega)
    rw [h4]
    simp
  have hmain : dns_display_domain (build_domain w parent)
      = some (w ++ [46] ++ parent.take (parent.length - 2)) := by
    unfold dns_display_domain slice_to
    rw [if_pos (show 3 ≤ (build_domain w parent).length by omega)]
    rw [hj]
    rw [if_pos ⟨by omega, hbnd⟩]
    rw [htake]
  refine ⟨hmain, fun hcontra => ?_⟩
  have heq : parent.take (parent.length - 2) = parent :=
    List.append_cancel_left hcontra
  have hlt := congrArg List.length heq
  simp [List.length_take] at hlt
  omega

/-- Witness for C5: the candidate built from `www` and the parent `ex` is
`www.ex.`, and the display shows `www.` — the trailing dot and the whole
two-byte parent are gone. -/
theorem C5_dns_display_removes_three_chars_witness :
    dns_display_domain (build_domain [119, 119, 119] [101, 120])
        = some ([119, 119, 119] ++ [46]
            ++ [101, 120].take ([101, 120].length - 2)) ∧
      [119, 119, 119] ++ [46] ++ [101, 120].take ([101, 120].length - 2)
        ≠ [119, 119, 119] ++ [46] ++ [101, 120] :=
  C5_dns_display_removes_three_chars [119, 119, 119] [101, 120]
    (by decide) (by decide)
